import Mathlib

/-!
Shallow embedding of the SkyMesh allocation core (models, scoring utility,
matching engine, conflict engine, reassignment engine, and the coordinator's
status-update mutator), together with theorems settling the spec claims.

Modelling conventions:
* Python floats are modelled as exact rationals (ℚ); the numeric claims are
  about the algorithms' real-valued formulas, not binary float artefacts.
* Python `date` values are modelled as `Nat` ordinals: source code only
  compares dates with `<=` / `>`, which the `Nat` order mirrors.
* Python sets of strings are `Finset String`; Python's stable `list.sort` /
  `sorted` (including `reverse=True`, which keeps ties in original order)
  is `List.mergeSort`, Lean's stable sort, with the matching comparator.
* In-place mutation of the entity lists is modelled by returning updated
  lists; `next(x for x in xs if p)` mutation targets the first match, which
  `updateFirst` reproduces; dict comprehensions `{k(x): x for x in xs}`
  keep the last binding per key, which `dictLookup` reproduces.
-/

namespace SkyMesh

open scoped List

/-- Python `int(q)` on a real value: truncation toward zero (the reduced
numerator T-divided by the positive denominator). -/
def pyInt (q : ℚ) : ℤ := q.num.tdiv q.den

/-- Python `max` on two integers. -/
def imax (a b : ℤ) : ℤ := if a ≤ b then b else a

/-- Python `min` on two integers. -/
def imin (a b : ℤ) : ℤ := if a ≤ b then a else b

/-- Floor of a rational as an integer (denominator is positive, so floor
division of the numerator). -/
def ratFloor (q : ℚ) : ℤ := q.num.fdiv q.den

/-- Python `round(q)`: round half to even (banker's rounding), exact model. -/
def pyRound (q : ℚ) : ℤ :=
  let f : ℤ := ratFloor q
  let r : ℚ := q - f
  if r < 1/2 then f else if 1/2 < r then f + 1 else if f % 2 = 0 then f else f + 1

/-- Python `round(q, 2)`. -/
def round2 (q : ℚ) : ℚ := (pyRound (q * 100) : ℚ) / 100

/-- ASCII lower-casing of a string, Python `s.lower()` on the identifier and
tag data this system carries. -/
def lowerStr (s : String) : String := ⟨s.data.map Char.toLower⟩

/-- Whitespace test used by Python `str.strip()`. -/
def isWhite (c : Char) : Bool := c = ' ' ∨ c = '\t' ∨ c = '\n' ∨ c = '\r'

/-- Python `s.strip()`. -/
def trimStr (s : String) : String :=
  ⟨((s.data.dropWhile isWhite).reverse.dropWhile isWhite).reverse⟩

/-- Python `s.lower().strip()`. -/
def normLS (s : String) : String := trimStr (lowerStr s)

/-- Python `s.strip().lower()`. -/
def normSL (s : String) : String := lowerStr (trimStr s)

/-- Python `needle in hay` on strings (substring containment). -/
def isSubstr (needle hay : String) : Bool :=
  (List.range (hay.data.length + 1)).any
    (fun i => needle.data.isPrefixOf (hay.data.drop i))

/-- Mutation of the first element satisfying `pred`, as done by Python's
`next(x for x in xs if pred)` followed by in-place field writes. -/
def updateFirst (pred : α → Bool) (f : α → α) : List α → List α
  | [] => []
  | x :: xs => if pred x then f x :: xs else x :: updateFirst pred f xs

/-- Mutation of the element at index `i` (used when the mutated object was
located through a two-pass search returning an index). -/
def updateIdx (i : Nat) (f : α → α) : List α → List α
  | [] => []
  | x :: xs =>
    match i with
    | 0 => f x :: xs
    | n + 1 => x :: updateIdx n f xs

/-- Lookup in the dict `{key x: x for x in l}`: the LAST binding per key wins. -/
def dictLookup (key : α → String) (l : List α) (k : String) : Option α :=
  l.reverse.find? (fun x => key x == k)

/-- All index-ordered pairs of a list: the nested loop
`for i in range(n): for j in range(i+1, n)`. -/
def allPairs : List α → List (α × α)
  | [] => []
  | x :: xs => xs.map (fun y => (x, y)) ++ allPairs xs

/-- Comparator for Python's stable `sort(key=key, reverse=True)`: element `a`
may precede `b` when `key b ≤ key a` (ties compare true both ways, and the
stable sort keeps them in original order, exactly as CPython does). -/
def keyLe {κ : Type} [LinearOrder κ] (key : α → κ) (a b : α) : Bool :=
  decide (key b ≤ key a)

/-- Python `sorted(l, key=key, reverse=True)` / `l.sort(key=key, reverse=True)`:
a stable descending sort by `key`. -/
def sortKeyDesc {κ : Type} [LinearOrder κ] (key : α → κ) (l : List α) : List α :=
  l.mergeSort (keyLe key)

/-! ## Entity model (src/models/pilot.py, drone.py, mission.py) -/

structure Pilot where
  pilot_id : String
  name : String
  skills : List String
  certifications : List String
  location : String
  status : String
  current_assignment : String
  available_from : Option Nat
deriving DecidableEq

/-- Source `Pilot.is_available`: `status == "Available"`. -/
def Pilot.is_available (p : Pilot) : Bool := p.status == "Available"

structure Drone where
  drone_id : String
  model : String
  capabilities : List String
  status : String
  location : String
  current_assignment : String
  maintenance_due : Option Nat
deriving DecidableEq

/-- Source `Drone.is_available`: `status == "Available"`. -/
def Drone.is_available (d : Drone) : Bool := d.status == "Available"

structure Mission where
  project_id : String
  client : String
  location : String
  required_skills : List String
  required_certs : List String
  start_date : Option Nat
  end_date : Option Nat
  priority : String
  assigned_pilot : String
  assigned_drone : String
deriving DecidableEq

/-- Source `PRIORITY_RANK.get(priority, 3)`. -/
def Mission.priority_rank (m : Mission) : Nat :=
  if m.priority = "Urgent" then 1
  else if m.priority = "High" then 2
  else if m.priority = "Standard" then 3
  else if m.priority = "Low" then 4
  else 3

/-- Source `Mission.overlaps_with`: no overlap reported unless all four dates
are present; otherwise closed-interval intersection. -/
def Mission.overlaps_with (m o : Mission) : Bool :=
  match m.start_date, m.end_date, o.start_date, o.end_date with
  | some s1, some e1, some s2, some e2 => s1 ≤ e2 && s2 ≤ e1
  | _, _, _, _ => false

/-! ## Scoring utility (src/utils/scoring.py) -/

/-- Source `set_overlap_ratio(required, available)`: 1.0 on empty
requirements, else `len(req_lower & avail_lower) / len(req_lower)` where both
sets are lowered and stripped. -/
def set_overlap_score (required available : Finset String) : ℚ :=
  if required = ∅ then 1
  else
    (((required.image normLS ∩ available.image normLS).card : ℚ)) /
      ((required.image normLS).card : ℚ)

/-- Source `location_match_score`: 0.0 if either is empty, else binary
case-insensitive stripped equality. -/
def location_match_score (a b : String) : ℚ :=
  if a = "" ∨ b = "" then 0
  else if normSL a = normSL b then 1 else 0

structure Weights where
  skill : ℚ
  cert : ℚ
  location : ℚ
  availability : ℚ

def defaultWeights : Weights := ⟨0.40, 0.30, 0.15, 0.15⟩

/-- Source `weighted_score(skill, cert, location, availability, weights=None)`. -/
def weighted_score (s c l a : ℚ) (w : Option Weights) : ℚ :=
  let W := w.getD defaultWeights
  s * W.skill + c * W.cert + l * W.location + a * W.availability

/-! ## Matching engine (src/engines/matching_engine.py) -/

/-- Source `score_pilot_for_mission`: returns (raw total, breakdown dict with
2-decimal rounded display values). -/
def score_pilot_for_mission (pilot : Pilot) (mission : Mission) :
    ℚ × List (String × ℚ) :=
  let skill_s := set_overlap_score mission.required_skills.toFinset pilot.skills.toFinset
  let cert_s := set_overlap_score mission.required_certs.toFinset pilot.certifications.toFinset
  let loc_s := location_match_score pilot.location mission.location
  let avail_s : ℚ :=
    match pilot.available_from, mission.start_date with
    | some a, some s => if a ≤ s then 1 else 0
    | _, _ => 0.5
  let total := weighted_score skill_s cert_s loc_s avail_s none
  (total,
    [("skill_match", round2 skill_s), ("cert_match", round2 cert_s),
     ("location_match", round2 loc_s), ("availability", round2 avail_s),
     ("total_score", round2 total)])

/-- Source `score_drone_for_mission`: capability 0.50, location 0.30,
maintenance safety 0.20 (fixed weights). -/
def score_drone_for_mission (drone : Drone) (mission : Mission) :
    ℚ × List (String × ℚ) :=
  let cap_s := set_overlap_score mission.required_skills.toFinset drone.capabilities.toFinset
  let loc_s := location_match_score drone.location mission.location
  let maint_s : ℚ :=
    match drone.maintenance_due, mission.end_date with
    | some md, some e => if e < md then 1 else 0
    | _, _ => 0.5
  let total := cap_s * 0.50 + loc_s * 0.30 + maint_s * 0.20
  (total,
    [("capability_match", round2 cap_s), ("location_match", round2 loc_s),
     ("maintenance_safe", round2 maint_s), ("total_score", round2 total)])

/-- The candidate accumulation loop of `find_best_pilots`: keep Available
pilots, score each. -/
def pilotCandidates (pilots : List Pilot) (mission : Mission) :
    List (Pilot × ℚ × List (String × ℚ)) :=
  (pilots.filter (fun p => p.is_available)).map
    (fun p => (p, score_pilot_for_mission p mission))

/-- The candidate accumulation loop of `find_best_drones`. -/
def droneCandidates (drones : List Drone) (mission : Mission) :
    List (Drone × ℚ × List (String × ℚ)) :=
  (drones.filter (fun d => d.is_available)).map
    (fun d => (d, score_drone_for_mission d mission))

/-- Source `find_best_pilots`: filter to Available, score, stable sort
descending by raw score, take top N. -/
def find_best_pilots (pilots : List Pilot) (mission : Mission) (top_n : Nat) :
    List (Pilot × ℚ × List (String × ℚ)) :=
  (sortKeyDesc (fun t => t.2.1) (pilotCandidates pilots mission)).take top_n

/-- Source `find_best_drones`: same shape as `find_best_pilots`. -/
def find_best_drones (drones : List Drone) (mission : Mission) (top_n : Nat) :
    List (Drone × ℚ × List (String × ℚ)) :=
  (sortKeyDesc (fun t => t.2.1) (droneCandidates drones mission)).take top_n

/-! ## Conflict engine (src/engines/conflict_engine.py) -/

structure Conflict where
  conflict_type : String
  severity : String
  entity_id : String
  entity_name : String
  mission_id : String
  description : String
deriving DecidableEq

/-- Rendering of an optional date inside conflict descriptions. -/
def dateStr : Option Nat → String
  | none => "None"
  | some n => toString n

/-- Python `groups.setdefault(k, []).append(m)`: extend the existing group for
`k` in place, else append a new group at the end (dict insertion order). -/
def addToGroups (k : String) (m : Mission) :
    List (String × List Mission) → List (String × List Mission)
  | [] => [(k, [m])]
  | g :: rest => if g.1 == k then (g.1, g.2 ++ [m]) :: rest else g :: addToGroups k m rest

/-- The list of missions held by a key's group (empty when the key is absent),
i.e. reading `groups[k]` of the built dict. -/
def lookupGroup (g : List (String × List Mission)) (k : String) : List Mission :=
  match g.find? (fun e => e.1 == k) with
  | some e => e.2
  | none => []

/-- The dict-building loop `for m in missions: if guard: setdefault(key m, []).append(m)`. -/
def groupsBy (key : Mission → String) (guard : Mission → Bool)
    (missions : List Mission) : List (String × List Mission) :=
  missions.foldl (fun g m => if guard m then addToGroups (key m) m g else g) []

/-- The `pilot_missions` grouping of `detect_double_bookings`: missions with a
non-empty `assigned_pilot` that resolves in `pilot_map`, grouped by pilot id. -/
def pilotGroups (pilots : List Pilot) (missions : List Mission) :
    List (String × List Mission) :=
  groupsBy (fun m => m.assigned_pilot)
    (fun m => m.assigned_pilot ≠ "" ∧ (dictLookup Pilot.pilot_id pilots m.assigned_pilot).isSome)
    missions

/-- The `drone_missions` grouping of `detect_drone_double_bookings`. -/
def droneGroups (drones : List Drone) (missions : List Mission) :
    List (String × List Mission) :=
  groupsBy (fun m => m.assigned_drone)
    (fun m => m.assigned_drone ≠ "" ∧ (dictLookup Drone.drone_id drones m.assigned_drone).isSome)
    missions

/-- The inner pair loop of `detect_double_bookings` for one pilot's group. -/
def emitPilotGroup (pilots : List Pilot) (g : String × List Mission) : List Conflict :=
  (allPairs g.2).filterMap (fun ab =>
    if ab.1.overlaps_with ab.2 then
      match dictLookup Pilot.pilot_id pilots g.1 with
      | some p => some
          ⟨"Double Booking", "Critical", g.1, p.name,
            ab.1.project_id ++ " & " ++ ab.2.project_id,
            "Pilot " ++ p.name ++ " (" ++ g.1 ++ ") is assigned to overlapping missions "
              ++ ab.1.project_id ++ " (" ++ dateStr ab.1.start_date ++ "–"
              ++ dateStr ab.1.end_date ++ ") and " ++ ab.2.project_id ++ " ("
              ++ dateStr ab.2.start_date ++ "–" ++ dateStr ab.2.end_date ++ ")."⟩
      | none => none
    else none)

/-- The inner pair loop of `detect_drone_double_bookings` for one drone. -/
def emitDroneGroup (drones : List Drone) (g : String × List Mission) : List Conflict :=
  (allPairs g.2).filterMap (fun ab =>
    if ab.1.overlaps_with ab.2 then
      match dictLookup Drone.drone_id drones g.1 with
      | some d => some
          ⟨"Double Booking", "Critical", g.1, d.model,
            ab.1.project_id ++ " & " ++ ab.2.project_id,
            "Drone " ++ d.model ++ " (" ++ g.1 ++ ") assigned to overlapping missions "
              ++ ab.1.project_id ++ " and " ++ ab.2.project_id ++ "."⟩
      | none => none
    else none)

/-- Source `detect_double_bookings`: one Critical conflict per ordered pair
(i &lt; j) of overlapping missions sharing an assigned pilot. -/
def detect_double_bookings (pilots : List Pilot) (missions : List Mission) :
    List Conflict :=
  (pilotGroups pilots missions).flatMap (emitPilotGroup pilots)

/-- Source `detect_drone_double_bookings`. -/
def detect_drone_double_bookings (drones : List Drone) (missions : List Mission) :
    List Conflict :=
  (droneGroups drones missions).flatMap (emitDroneGroup drones)

/-- Source `detect_skill_mismatches`: per mission with a resolvable assigned
pilot, one conflict for non-empty missing skills and one for missing certs. -/
def detect_skill_mismatches (pilots : List Pilot) (missions : List Mission) :
    List Conflict :=
  missions.flatMap (fun m =>
    if m.assigned_pilot ≠ "" then
      match dictLookup Pilot.pilot_id pilots m.assigned_pilot with
      | some p =>
        let p_skills := p.skills.map normLS
        let p_certs := p.certifications.map normLS
        let missing_skills := m.required_skills.filter (fun s => ¬ p_skills.contains (normLS s))
        let missing_certs := m.required_certs.filter (fun c => ¬ p_certs.contains (normLS c))
        (if missing_skills ≠ [] then
          [⟨"Skill Mismatch", "Critical", p.pilot_id, p.name, m.project_id,
            "Pilot " ++ p.name ++ " is missing required skills: "
              ++ String.intercalate ", " missing_skills ++ " for " ++ m.project_id ++ "."⟩]
         else []) ++
        (if missing_certs ≠ [] then
          [⟨"Skill Mismatch", "Critical", p.pilot_id, p.name, m.project_id,
            "Pilot " ++ p.name ++ " is missing required certifications: "
              ++ String.intercalate ", " missing_certs ++ " for " ++ m.project_id ++ "."⟩]
         else [])
      | none => []
    else [])

/-- Source `detect_maintenance_conflicts`: Maintenance status short-circuits
(Critical); otherwise due-before-mission-end yields a Warning. -/
def detect_maintenance_conflicts (drones : List Drone) (missions : List Mission) :
    List Conflict :=
  missions.flatMap (fun m =>
    if m.assigned_drone ≠ "" then
      match dictLookup Drone.drone_id drones m.assigned_drone with
      | some d =>
        if d.status = "Maintenance" then
          [⟨"Maintenance", "Critical", d.drone_id, d.model, m.project_id,
            "Drone " ++ d.model ++ " (" ++ d.drone_id
              ++ ") is currently in Maintenance and cannot be assigned to "
              ++ m.project_id ++ "."⟩]
        else
          match d.maintenance_due, m.end_date with
          | some md, some e =>
            if md ≤ e then
              [⟨"Maintenance", "Warning", d.drone_id, d.model, m.project_id,
                "Drone " ++ d.model ++ " (" ++ d.drone_id ++ ") has maintenance due on "
                  ++ toString md ++ " but mission " ++ m.project_id ++ " ends on "
                  ++ toString e ++ "."⟩]
            else []
          | _, _ => []
      | none => []
    else [])

/-- Source `detect_location_mismatches`: suppressed when the mission location
is empty; pilot and drone each checked independently. -/
def detect_location_mismatches (pilots : List Pilot) (drones : List Drone)
    (missions : List Mission) : List Conflict :=
  missions.flatMap (fun m =>
    if m.location = "" then []
    else
      (if m.assigned_pilot ≠ "" then
        match dictLookup Pilot.pilot_id pilots m.assigned_pilot with
        | some p =>
          if p.location ≠ "" ∧ normLS p.location ≠ normLS m.location then
            [⟨"Location Mismatch", "Warning", p.pilot_id, p.name, m.project_id,
              "Pilot " ++ p.name ++ " is in " ++ p.location ++ " but mission "
                ++ m.project_id ++ " is in " ++ m.location ++ "."⟩]
          else []
        | none => []
       else []) ++
      (if m.assigned_drone ≠ "" then
        match dictLookup Drone.drone_id drones m.assigned_drone with
        | some d =>
          if d.location ≠ "" ∧ normLS d.location ≠ normLS m.location then
            [⟨"Location Mismatch", "Warning", d.drone_id, d.model, m.project_id,
              "Drone " ++ d.model ++ " (" ++ d.drone_id ++ ") is in " ++ d.location
                ++ " but mission " ++ m.project_id ++ " is in " ++ m.location ++ "."⟩]
          else []
        | none => []
       else []))

/-- Source `detect_all_conflicts`: the five scans concatenated in fixed order. -/
def detect_all_conflicts (pilots : List Pilot) (drones : List Drone)
    (missions : List Mission) : List Conflict :=
  detect_double_bookings pilots missions ++
    detect_drone_double_bookings drones missions ++
    detect_skill_mismatches pilots missions ++
    detect_maintenance_conflicts drones missions ++
    detect_location_mismatches pilots drones missions

/-! ## Reassignment engine (src/engines/reassignment_engine.py) -/

structure SwapPlan where
  urgent_mission_id : String
  suggested_pilot : Option Pilot
  pilot_score : ℚ
  pilot_breakdown : List (String × ℚ)
  suggested_drone : Option Drone
  drone_score : ℚ
  drone_breakdown : List (String × ℚ)
  displaced_from_mission : Option String
  displaced_mission_priority : Option String
  risk_score : ℤ
  justification : String
  warnings : List String
deriving DecidableEq

/-- Source `_compute_risk_score`: Python `int()` truncation of the base
formula, swap surcharges, clamp to 0..100. -/
def compute_risk_score (pilot_score drone_score : ℚ) (is_swap : Bool)
    (displaced_priority : Option String) : ℤ :=
  let base := pyInt ((1 - (pilot_score + drone_score) / 2) * 50)
  let r :=
    if is_swap then
      base + 20 +
        (if displaced_priority = some "High" then 20
         else if displaced_priority = some "Urgent" then 30
         else if displaced_priority = some "Standard" ∨ displaced_priority = some "Low" then 5
         else 0)
    else base
  imax 0 (imin 100 r)

/-- The phase-2 candidate pool of `suggest_reassignment`: staffed Low/Standard
missions, stably sorted with lowest urgency (highest rank) first. -/
def reassignable_pool (missions : List Mission) : List Mission :=
  sortKeyDesc Mission.priority_rank
    (missions.filter
      (fun m => m.assigned_pilot ≠ "" ∧ (m.priority = "Low" ∨ m.priority = "Standard")))

/-- Phase-1 plans: up to two top pilots each paired with the single best
drone; built only when both candidate lists are non-empty. -/
def phase1_plans (urgent : Mission)
    (best_pilots : List (Pilot × ℚ × List (String × ℚ)))
    (best_drones : List (Drone × ℚ × List (String × ℚ))) : List SwapPlan :=
  match best_pilots, best_drones with
  | _ :: _, dc :: _ =>
    (best_pilots.take 2).map (fun pc =>
      { urgent_mission_id := urgent.project_id
        suggested_pilot := some pc.1
        pilot_score := pc.2.1
        pilot_breakdown := pc.2.2
        suggested_drone := some dc.1
        drone_score := dc.2.1
        drone_breakdown := dc.2.2
        displaced_from_mission := none
        displaced_mission_priority := none
        risk_score := compute_risk_score pc.2.1 dc.2.1 false none
        justification := "Available pilot " ++ pc.1.name ++ " and drone " ++ dc.1.model
          ++ " match the mission requirements."
        warnings := [] })
  | _, _ => []

/-- One iteration of the phase-2 loop body of `suggest_reassignment`: resolve
the pool mission's assigned pilot (last dict binding wins), skip below the
0.3 viability floor, else build the displacement plan, pairing the best
available drone when one exists. -/
def phase2_plan_for (urgent : Mission) (pilots : List Pilot)
    (best_drones : List (Drone × ℚ × List (String × ℚ)))
    (m : Mission) : Option SwapPlan :=
  match dictLookup Pilot.pilot_id pilots m.assigned_pilot with
  | none => none
  | some candidate =>
    let sc := score_pilot_for_mission candidate urgent
    if sc.1 < 0.3 then none
    else
      let dpart : Option Drone × ℚ × List (String × ℚ) :=
        match best_drones with
        | [] => (none, 0, [])
        | dc :: _ => (some dc.1, dc.2.1, dc.2.2)
      some
        { urgent_mission_id := urgent.project_id
          suggested_pilot := some candidate
          pilot_score := sc.1
          pilot_breakdown := sc.2
          suggested_drone := dpart.1
          drone_score := dpart.2.1
          drone_breakdown := dpart.2.2
          displaced_from_mission := some m.project_id
          displaced_mission_priority := some m.priority
          risk_score := compute_risk_score sc.1 dpart.2.1 true (some m.priority)
          justification := "Swap pilot " ++ candidate.name ++ " from " ++ m.project_id
            ++ " (Priority: " ++ m.priority ++ ") to urgent mission "
            ++ urgent.project_id ++ "."
          warnings := ["Mission " ++ m.project_id ++ " (" ++ m.client
            ++ ") will be left without a pilot."] }

/-- Phase-2 plans: the loop body applied over the sorted candidate pool. -/
def phase2_plans (urgent : Mission) (pilots : List Pilot)
    (best_drones : List (Drone × ℚ × List (String × ℚ)))
    (missions : List Mission) : List SwapPlan :=
  (reassignable_pool missions).filterMap (phase2_plan_for urgent pilots best_drones)

/-- The no-available-drone warning pass of `suggest_reassignment`: append the
warning and raise the risk score by 15, capped at 100. -/
def add_no_drone_warning (pl : SwapPlan) : SwapPlan :=
  { pl with
    warnings := pl.warnings ++ ["No available drones found. Manual drone assignment needed."]
    risk_score := imin 100 (pl.risk_score + 15) }

/-- Source `suggest_reassignment`: phase 1, phase 2 when no available pilot,
the no-drone warning pass, then a stable ascending sort by risk. -/
def suggest_reassignment (urgent : Mission) (pilots : List Pilot)
    (drones : List Drone) (missions : List Mission) : List SwapPlan :=
  let best_pilots := find_best_pilots pilots urgent 3
  let best_drones := find_best_drones drones urgent 3
  let plans := phase1_plans urgent best_pilots best_drones ++
    (if best_pilots = [] then phase2_plans urgent pilots best_drones missions else [])
  let plans :=
    if best_drones = [] then plans.map add_no_drone_warning else plans
  plans.mergeSort (fun a b => decide (a.risk_score ≤ b.risk_score))

/-- Result of `execute_reassignment`: the (possibly mutated) entity lists and
either the returned summary string (`some`) or an escaped exception (`none`,
the bare `next()` raising StopIteration). -/
structure ExecOut where
  pilots : List Pilot
  drones : List Drone
  missions : List Mission
  result : Option String
deriving DecidableEq

/-- The drone half of `execute_reassignment`, reached after the pilot half. -/
def execDronePhase (plan : SwapPlan) (urgentPid : String) (pilots : List Pilot)
    (drones : List Drone) (missions : List Mission) (changes : List String) : ExecOut :=
  match plan.suggested_drone with
  | none =>
    ⟨pilots, drones, missions,
      some (if changes = [] then "No changes were made." else String.intercalate "\n" changes)⟩
  | some sd =>
    match drones.find? (fun d => d.drone_id == sd.drone_id) with
    | none => ⟨pilots, drones, missions, none⟩
    | some drone =>
      let drones1 := updateFirst (fun d => d.drone_id == sd.drone_id)
        (fun d => { d with status := "Assigned", current_assignment := plan.urgent_mission_id })
        drones
      let missions1 := updateFirst (fun m => m.project_id == plan.urgent_mission_id)
        (fun m => { m with assigned_drone := drone.drone_id }) missions
      ⟨pilots, drones1, missions1,
        some (String.intercalate "\n"
          (changes ++ ["Assigned drone " ++ drone.model ++ " (" ++ drone.drone_id
            ++ ") to " ++ urgentPid]))⟩

/-- Source `execute_reassignment`: fail on an unknown urgent mission id before
any mutation; else clear the displaced mission's pilot, assign the suggested
pilot (both sides), then the suggested drone (both sides). -/
def execute_reassignment (plan : SwapPlan) (pilots : List Pilot)
    (drones : List Drone) (missions : List Mission) : ExecOut :=
  match missions.find? (fun m => m.project_id == plan.urgent_mission_id) with
  | none =>
    ⟨pilots, drones, missions, some ("❌ Mission " ++ plan.urgent_mission_id ++ " not found.")⟩
  | some urgent =>
    match plan.suggested_pilot with
    | none => execDronePhase plan urgent.project_id pilots drones missions []
    | some sp =>
      let cleared : List Mission × List String :=
        match plan.displaced_from_mission with
        | some dfm =>
          if dfm ≠ "" then
            match missions.find? (fun m => m.project_id == dfm) with
            | some old =>
              (updateFirst (fun m => m.project_id == dfm)
                (fun m => { m with assigned_pilot := "" }) missions,
               ["Removed " ++ sp.name ++ " from " ++ old.project_id])
            | none => (missions, [])
          else (missions, [])
        | none => (missions, [])
      match pilots.find? (fun p => p.pilot_id == sp.pilot_id) with
      | none => ⟨pilots, drones, cleared.1, none⟩
      | some pilot =>
        let pilots1 := updateFirst (fun p => p.pilot_id == sp.pilot_id)
          (fun p => { p with status := "Assigned", current_assignment := plan.urgent_mission_id })
          pilots
        let missions1 := updateFirst (fun m => m.project_id == plan.urgent_mission_id)
          (fun m => { m with assigned_pilot := pilot.pilot_id }) cleared.1
        execDronePhase plan urgent.project_id pilots1 drones missions1
          (cleared.2 ++ ["Assigned pilot " ++ pilot.name ++ " (" ++ pilot.pilot_id
            ++ ") to " ++ urgent.project_id])

/-! ## Coordinator mutator (src/agent/coordinator_agent.py, status update) -/

structure Snapshot where
  pilots : List Pilot
  drones : List Drone
  missions : List Mission
deriving DecidableEq

/-- Index form of `DataStore.find_pilot`: exact id-or-name match first, then
partial (substring) name match. -/
def find_pilot_idx (ps : List Pilot) (ident : String) : Option Nat :=
  let idn := normSL ident
  match ps.findIdx? (fun p => lowerStr p.pilot_id == idn || lowerStr p.name == idn) with
  | some i => some i
  | none => ps.findIdx? (fun p => isSubstr idn (lowerStr p.name))

/-- Index form of `DataStore.find_drone`. -/
def find_drone_idx (ds : List Drone) (ident : String) : Option Nat :=
  let idn := normSL ident
  match ds.findIdx? (fun d => lowerStr d.drone_id == idn || lowerStr d.model == idn) with
  | some i => some i
  | none => ds.findIdx? (fun d => isSubstr idn (lowerStr d.model))

/-- Mutation core of `_handle_update_status`: set the pilot's status and, for
On Leave / Available, clear the pilot's own `current_assignment` — the
referencing mission is NOT touched; a drone gets only its status set. -/
def handle_update_status (name new_status : String) (s : Snapshot) : Snapshot :=
  match find_pilot_idx s.pilots name with
  | some i =>
    { s with pilots := updateIdx i (fun p =>
        let p1 := { p with status := new_status }
        if new_status = "On Leave" ∨ new_status = "Available" then
          { p1 with current_assignment := "" }
        else p1) s.pilots }
  | none =>
    match find_drone_idx s.drones name with
    | some j =>
      { s with drones := updateIdx j (fun d => { d with status := new_status }) s.drones }
    | none => s

/-- Mission-to-pilot half of the bidirectional invariant of spec section 3. -/
def pilotSideInv (ps : List Pilot) (ms : List Mission) : Prop :=
  ∀ m ∈ ms, m.assigned_pilot ≠ "" → ∀ p ∈ ps, p.pilot_id = m.assigned_pilot →
    p.current_assignment = m.project_id ∧ p.status = "Assigned"

/-- Mission-to-drone half of the bidirectional invariant. -/
def droneSideInv (ds : List Drone) (ms : List Mission) : Prop :=
  ∀ m ∈ ms, m.assigned_drone ≠ "" → ∀ d ∈ ds, d.drone_id = m.assigned_drone →
    d.current_assignment = m.project_id ∧ d.status = "Assigned"

/-- The bidirectional assignment invariant on a snapshot. -/
def bidirInv (s : Snapshot) : Prop :=
  pilotSideInv s.pilots s.missions ∧ droneSideInv s.drones s.missions

instance (ps : List Pilot) (ms : List Mission) : Decidable (pilotSideInv ps ms) := by
  unfold pilotSideInv; infer_instance

instance (ds : List Drone) (ms : List Mission) : Decidable (droneSideInv ds ms) := by
  unfold droneSideInv; infer_instance

instance (s : Snapshot) : Decidable (bidirInv s) := by
  unfold bidirInv; infer_instance

/-! ## Concrete entities used by evaluation theorems -/

def arjun : Pilot := ⟨"P1", "Arjun", [], [], "Bangalore", "Assigned", "PRJ001", none⟩

def prj1 : Mission :=
  ⟨"PRJ001", "Acme", "Bangalore", [], [], some 10, some 20, "Standard", "P1", ""⟩

def snap1 : Snapshot := ⟨[arjun], [], [prj1]⟩

def ghostPilot : Pilot := ⟨"P9", "Ghost", [], [], "", "Available", "", none⟩

def arjunAvail : Pilot := ⟨"P2", "Nia", [], [], "Bangalore", "Available", "", none⟩

def exM1 : Mission := ⟨"M1", "CliA", "", [], [], none, none, "Urgent", "", ""⟩

def exM2 : Mission := ⟨"M2", "CliB", "", [], [], none, none, "Standard", "P9", ""⟩

def exPlan : SwapPlan :=
  ⟨"M1", some ghostPilot, 0, [], none, 0, [], some "M2", some "Standard", 0, "", []⟩

def exPlanNF : SwapPlan :=
  ⟨"MX", none, 0, [], none, 0, [], none, none, 0, "", []⟩

def idleDrone : Drone := ⟨"D1", "Mavic", [], "Maintenance", "", "", none⟩

def busyPilot : Pilot := ⟨"PB", "Ravi", [], [], "Pune", "Assigned", "ML", none⟩

def dbPilot : Pilot := ⟨"P7", "Mira", [], [], "Delhi", "Assigned", "MA", none⟩

def dbM1 : Mission := ⟨"MA", "CliA", "Delhi", [], [], some 1, some 10, "Standard", "P7", ""⟩

def dbM2 : Mission := ⟨"MB", "CliB", "Delhi", [], [], some 5, some 15, "Standard", "P7", ""⟩

def urgentM : Mission := ⟨"MU", "CliU", "Pune", [], [], some 5, some 9, "Urgent", "", ""⟩

def lowM : Mission := ⟨"ML", "CliL", "Pune", [], [], some 1, some 3, "Low", "PB", ""⟩

/-! ## Structural helper lemmas about the engines -/

theorem keyLe_trans {κ : Type} [LinearOrder κ] (key : α → κ) :
    ∀ a b c, keyLe key a b → keyLe key b c → keyLe key a c := by
  intro a b c h1 h2
  simp only [keyLe, decide_eq_true_eq] at *
  exact le_trans h2 h1

theorem keyLe_total {κ : Type} [LinearOrder κ] (key : α → κ) :
    ∀ a b, keyLe key a b || keyLe key b a := by
  intro a b
  simp only [keyLe, Bool.or_eq_true, decide_eq_true_eq]
  exact le_total _ _

theorem sortKeyDesc_perm {κ : Type} [LinearOrder κ] (key : α → κ) (l : List α) :
    sortKeyDesc key l ~ l :=
  List.mergeSort_perm l _

theorem sortKeyDesc_sorted {κ : Type} [LinearOrder κ] (key : α → κ) (l : List α) :
    (sortKeyDesc key l).Pairwise (fun a b => key b ≤ key a) := by
  have h := List.sorted_mergeSort (keyLe_trans key) (keyLe_total key) l
  exact h.imp (by intro a b hab; simpa [keyLe] using hab)

theorem pairwise_of_mem_all {R : α → α → Prop} {l : List α}
    (h : ∀ a ∈ l, ∀ b ∈ l, R a b) : l.Pairwise R := by
  induction l with
  | nil => exact List.Pairwise.nil
  | cons x xs ih =>
    constructor
    · exact fun b hb => h x (List.mem_cons_self _ _) b (List.mem_cons_of_mem _ hb)
    · exact ih (fun a ha b hb =>
        h a (List.mem_cons_of_mem _ ha) b (List.mem_cons_of_mem _ hb))

theorem sortKeyDesc_filter_key {κ : Type} [LinearOrder κ] (key : α → κ)
    (l : List α) (q : κ) :
    (sortKeyDesc key l).filter (fun a => decide (key a = q)) =
      l.filter (fun a => decide (key a = q)) := by
  set p : α → Bool := fun a => decide (key a = q) with hp
  have hsub : l.filter p <+ sortKeyDesc key l := by
    apply List.sublist_mergeSort (keyLe_trans key) (keyLe_total key)
    · apply pairwise_of_mem_all
      intro a ha b hb
      have ha' : key a = q := by simpa [hp] using (List.mem_filter.mp ha).2
      have hb' : key b = q := by simpa [hp] using (List.mem_filter.mp hb).2
      simp [keyLe, ha', hb']
    · exact List.filter_sublist l
  have hsub2 : l.filter p <+ (sortKeyDesc key l).filter p := by
    have h := List.Sublist.filter p hsub
    simpa using h
  have hlen : ((sortKeyDesc key l).filter p).length = (l.filter p).length := by
    have hperm := sortKeyDesc_perm key l
    simp only [← List.countP_eq_length_filter]
    exact hperm.countP_eq p
  exact (List.Sublist.eq_of_length hsub2 hlen.symm).symm

theorem takeSorted_length {κ : Type} [LinearOrder κ] (key : α → κ) (l : List α)
    (n : Nat) : ((sortKeyDesc key l).take n).length = min n l.length := by
  simp [sortKeyDesc]

theorem takeSorted_sorted {κ : Type} [LinearOrder κ] (key : α → κ) (l : List α)
    (n : Nat) : ((sortKeyDesc key l).take n).Pairwise (fun a b => key b ≤ key a) :=
  (sortKeyDesc_sorted key l).sublist (List.take_sublist n _)

theorem takeSorted_split {κ : Type} [LinearOrder κ] (key : α → κ) (l : List α)
    (n : Nat) :
    ∃ rest, (sortKeyDesc key l).take n ++ rest ~ l ∧
      ∀ a ∈ (sortKeyDesc key l).take n, ∀ b ∈ rest, key b ≤ key a := by
  refine ⟨(sortKeyDesc key l).drop n, ?_, ?_⟩
  · rw [List.take_append_drop]
    exact sortKeyDesc_perm key l
  · have hs := sortKeyDesc_sorted key l
    rw [← List.take_append_drop n (sortKeyDesc key l)] at hs
    exact (List.pairwise_append.mp hs).2.2

theorem takeSorted_stable {κ : Type} [LinearOrder κ] (key : α → κ) (l : List α)
    (n : Nat) (q : κ) :
    ((sortKeyDesc key l).take n).filter (fun a => decide (key a = q)) <+
      l.filter (fun a => decide (key a = q)) := by
  have h1 := List.Sublist.filter (fun a => decide (key a = q))
    (List.take_sublist n (sortKeyDesc key l))
  rwa [sortKeyDesc_filter_key] at h1

theorem find_best_pilots_nil_of_none_available {pilots : List Pilot} {m : Mission}
    {n : Nat} (h : ∀ p ∈ pilots, p.status ≠ "Available") :
    find_best_pilots pilots m n = [] := by
  have hnil : pilots.filter (fun p => p.is_available) = [] :=
    List.filter_eq_nil_iff.mpr (fun p hp => by
      simp only [Pilot.is_available, beq_iff_eq]
      exact h p hp)
  simp [find_best_pilots, pilotCandidates, hnil, sortKeyDesc]

theorem find_best_drones_nil_of_none_available {drones : List Drone} {m : Mission}
    {n : Nat} (h : ∀ d ∈ drones, d.status ≠ "Available") :
    find_best_drones drones m n = [] := by
  have hnil : drones.filter (fun d => d.is_available) = [] :=
    List.filter_eq_nil_iff.mpr (fun d hd => by
      simp only [Drone.is_available, beq_iff_eq]
      exact h d hd)
  simp [find_best_drones, droneCandidates, hnil, sortKeyDesc]

theorem find_best_pilots_ne_nil_of_available {pilots : List Pilot} {m : Mission}
    (hp : ∃ p ∈ pilots, p.status = "Available") :
    find_best_pilots pilots m 3 ≠ [] := by
  obtain ⟨p, hpm, hps⟩ := hp
  have hmem : p ∈ pilots.filter (fun p => p.is_available) :=
    List.mem_filter.mpr ⟨hpm, by simp [Pilot.is_available, hps]⟩
  intro hcon
  have hlen := congrArg List.length hcon
  rw [find_best_pilots, takeSorted_length] at hlen
  simp only [pilotCandidates, List.length_map, List.length_nil] at hlen
  have h0 : (pilots.filter (fun p => p.is_available)).length = 0 := by omega
  rw [List.length_eq_zero] at h0
  rw [h0] at hmem
  exact absurd hmem (List.not_mem_nil p)

theorem phase1_plans_displaced_none {u : Mission}
    {bp : List (Pilot × ℚ × List (String × ℚ))}
    {bd : List (Drone × ℚ × List (String × ℚ))} :
    ∀ pl ∈ phase1_plans u bp bd, pl.displaced_from_mission = none := by
  intro pl hpl
  match bp, bd with
  | [], _ => simp [phase1_plans] at hpl
  | _ :: _, [] => simp [phase1_plans] at hpl
  | x :: xs, dc :: ds =>
    simp only [phase1_plans, List.mem_map] at hpl
    obtain ⟨pc, _, rfl⟩ := hpl
    rfl

theorem nodup_map_inj {β : Type} {l : List α} {f : α → β} (h : (l.map f).Nodup)
    {a b : α} (ha : a ∈ l) (hb : b ∈ l) (hf : f a = f b) : a = b := by
  induction l with
  | nil => cases ha
  | cons x xs ih =>
    simp only [List.map_cons, List.nodup_cons] at h
    rcases List.mem_cons.mp ha with rfl | ha' <;> rcases List.mem_cons.mp hb with rfl | hb'
    · rfl
    · rw [hf] at h
      exact absurd (List.mem_map_of_mem f hb') h.1
    · rw [← hf] at h
      exact absurd (List.mem_map_of_mem f ha') h.1
    · exact ih h.2 ha' hb'

theorem phase2_plan_for_fields {urgent : Mission} {pilots : List Pilot}
    {bd : List (Drone × ℚ × List (String × ℚ))} {m : Mission} {pl : SwapPlan}
    (h : phase2_plan_for urgent pilots bd m = some pl) :
    pl.displaced_from_mission = some m.project_id ∧
    ∃ cand, dictLookup Pilot.pilot_id pilots m.assigned_pilot = some cand ∧
      pl.suggested_pilot = some cand ∧
      ¬ ((score_pilot_for_mission cand urgent).1 < 0.3) := by
  unfold phase2_plan_for at h
  cases hlk : dictLookup Pilot.pilot_id pilots m.assigned_pilot with
  | none => rw [hlk] at h; exact absurd h (by simp)
  | some cand =>
    rw [hlk] at h
    simp only at h
    split_ifs at h with hsc
    obtain rfl := Option.some.inj h
    exact ⟨rfl, ⟨cand, ⟨rfl, ⟨rfl, hsc⟩⟩⟩⟩

theorem phase2_plan_for_some_of {urgent : Mission} {pilots : List Pilot}
    (bd : List (Drone × ℚ × List (String × ℚ))) {m : Mission} {cand : Pilot}
    (hlk : dictLookup Pilot.pilot_id pilots m.assigned_pilot = some cand)
    (hsc : ¬ ((score_pilot_for_mission cand urgent).1 < 0.3)) :
    ∃ pl, phase2_plan_for urgent pilots bd m = some pl ∧
      pl.displaced_from_mission = some m.project_id ∧
      pl.suggested_pilot = some cand := by
  unfold phase2_plan_for
  rw [hlk]
  dsimp only
  rw [if_neg hsc]
  exact ⟨_, rfl, rfl, rfl⟩

theorem add_no_drone_warning_fields (pl : SwapPlan) :
    (add_no_drone_warning pl).displaced_from_mission = pl.displaced_from_mission ∧
    (add_no_drone_warning pl).suggested_pilot = pl.suggested_pilot :=
  ⟨rfl, rfl⟩

/-- Membership in the final plan list, with the two plan fields that identify
a displacement plan, is equivalent to membership in the pre-sort pre-warning
plan list: the warning pass does not change these fields and the risk sort is
a permutation. -/
theorem mem_suggest_fields_iff {urgent : Mission} {pilots : List Pilot}
    {drones : List Drone} {missions : List Mission} (dfm : Option String)
    (sp : Option Pilot) :
    (∃ pl ∈ suggest_reassignment urgent pilots drones missions,
        pl.displaced_from_mission = dfm ∧ pl.suggested_pilot = sp) ↔
    (∃ pl ∈ phase1_plans urgent (find_best_pilots pilots urgent 3)
          (find_best_drones drones urgent 3) ++
        (if find_best_pilots pilots urgent 3 = [] then
          phase2_plans urgent pilots (find_best_drones drones urgent 3) missions
        else []),
        pl.displaced_from_mission = dfm ∧ pl.suggested_pilot = sp) := by
  simp only [suggest_reassignment]
  constructor
  · rintro ⟨pl, hpl, hd, hs⟩
    rw [List.mem_mergeSort] at hpl
    by_cases hbd : find_best_drones drones urgent 3 = []
    · rw [if_pos hbd] at hpl
      obtain ⟨pl0, hpl0, rfl⟩ := List.mem_map.mp hpl
      exact ⟨pl0, hpl0, hd, hs⟩
    · rw [if_neg hbd] at hpl
      exact ⟨pl, hpl, hd, hs⟩
  · rintro ⟨pl, hpl, hd, hs⟩
    by_cases hbd : find_best_drones drones urgent 3 = []
    · refine ⟨add_no_drone_warning pl, ?_, hd, hs⟩
      rw [List.mem_mergeSort, if_pos hbd]
      exact List.mem_map_of_mem _ hpl
    · refine ⟨pl, ?_, hd, hs⟩
      rw [List.mem_mergeSort, if_neg hbd]
      exact hpl

theorem lookupGroup_cons (e : String × List Mission)
    (rest : List (String × List Mission)) (k : String) :
    lookupGroup (e :: rest) k = if e.1 = k then e.2 else lookupGroup rest k := by
  simp only [lookupGroup]
  by_cases h : e.1 = k
  · rw [List.find?_cons_of_pos _ (by simpa using h), if_pos h]
  · rw [List.find?_cons_of_neg _ (by simpa using h), if_neg h]

theorem addToGroups_lookup (k0 : String) (m : Mission)
    (g : List (String × List Mission)) (k : String) :
    lookupGroup (addToGroups k0 m g) k =
      if k = k0 then lookupGroup g k ++ [m] else lookupGroup g k := by
  induction g with
  | nil =>
    by_cases h : k = k0
    · simp [addToGroups, lookupGroup_cons, lookupGroup, h]
    · simp [addToGroups, lookupGroup_cons, lookupGroup, h, Ne.symm h]
  | cons e rest ih =>
    by_cases h1 : e.1 = k0 <;> by_cases h2 : e.1 = k
    · have hk : k = k0 := by rw [← h2, h1]
      simp [addToGroups, h1, lookupGroup_cons, h2, hk]
    · have hk : ¬ k = k0 := by
        rw [← h1]
        exact fun hc => h2 hc.symm
      have hk' : ¬ k0 = k := fun hc => hk hc.symm
      simp [addToGroups, h1, lookupGroup_cons, h2, hk, hk']
    · have hk : ¬ k = k0 := fun hc => h1 (h2.trans hc)
      have hk' : ¬ k0 = k := fun hc => hk hc.symm
      simp [addToGroups, h1, lookupGroup_cons, h2, hk, hk']
    · simp [addToGroups, h1, lookupGroup_cons, h2, ih]

theorem addToGroups_keys (k0 : String) (m : Mission)
    (g : List (String × List Mission)) :
    (addToGroups k0 m g).map Prod.fst =
      if k0 ∈ g.map Prod.fst then g.map Prod.fst else g.map Prod.fst ++ [k0] := by
  induction g with
  | nil => simp [addToGroups]
  | cons e rest ih =>
    by_cases h1 : e.1 = k0
    · rw [addToGroups, if_pos (by simpa using h1)]
      simp [h1]
    · rw [addToGroups, if_neg (by simpa using h1)]
      simp only [List.map_cons, ih]
      by_cases h2 : k0 ∈ rest.map Prod.fst
      · rw [if_pos h2, if_pos (by simp [h2])]
      · rw [if_neg h2, if_neg (by simp [h2]; exact fun hc => h1 hc.symm)]
        simp

theorem addToGroups_keys_nodup (k0 : String) (m : Mission)
    {g : List (String × List Mission)} (h : (g.map Prod.fst).Nodup) :
    ((addToGroups k0 m g).map Prod.fst).Nodup := by
  rw [addToGroups_keys]
  by_cases h2 : k0 ∈ g.map Prod.fst
  · rwa [if_pos h2]
  · rw [if_neg h2]
    simp [List.nodup_append, h, h2]

theorem groupsBy_keys_nodup (key : Mission → String) (guard : Mission → Bool)
    (missions : List Mission) :
    ((groupsBy key guard missions).map Prod.fst).Nodup := by
  suffices h : ∀ g0 : List (String × List Mission), (g0.map Prod.fst).Nodup →
      ((missions.foldl (fun g m => if guard m then addToGroups (key m) m g else g) g0).map
        Prod.fst).Nodup by
    exact h [] (by simp)
  induction missions with
  | nil => intro g0 h0; simpa using h0
  | cons m ms ih =>
    intro g0 h0
    simp only [List.foldl_cons]
    by_cases hg : guard m = true
    · rw [hg]
      simp only [if_true]
      exact ih _ (addToGroups_keys_nodup _ _ h0)
    · rw [if_neg hg]
      exact ih _ h0

theorem foldl_groups_lookup {key : Mission → String} {guard : Mission → Bool}
    {k : String} (ms : List Mission) :
    ∀ g0, (∀ m ∈ ms, key m = k → guard m = true) →
    lookupGroup (ms.foldl (fun g m => if guard m then addToGroups (key m) m g else g) g0) k =
      lookupGroup g0 k ++ ms.filter (fun m => key m == k) := by
  induction ms with
  | nil => intro g0 _; simp
  | cons m ms ih =>
    intro g0 hg
    simp only [List.foldl_cons]
    by_cases hk : key m = k
    · have hgm : guard m = true := hg m (List.mem_cons_self _ _) hk
      rw [hgm]
      simp only [if_true]
      rw [ih _ (fun m' hm' => hg m' (List.mem_cons_of_mem _ hm'))]
      rw [addToGroups_lookup, if_pos hk.symm]
      rw [List.filter_cons_of_pos (by simp [hk])]
      simp
    · by_cases hgm : guard m = true
      · rw [hgm]
        simp only [if_true]
        rw [ih _ (fun m' hm' => hg m' (List.mem_cons_of_mem _ hm'))]
        rw [addToGroups_lookup, if_neg (fun hc => hk hc.symm)]
        rw [List.filter_cons_of_neg (by simp [hk])]
      · rw [if_neg hgm]
        rw [ih _ (fun m' hm' => hg m' (List.mem_cons_of_mem _ hm'))]
        rw [List.filter_cons_of_neg (by simp [hk])]

theorem dictLookup_eq_some_self {β : Type} {l : List β} {key : β → String}
    (hnd : (l.map key).Nodup) {a : β} (ha : a ∈ l) :
    dictLookup key l (key a) = some a := by
  induction l with
  | nil => cases ha
  | cons x xs ih =>
    simp only [List.map_cons, List.nodup_cons] at hnd
    unfold dictLookup
    rw [List.reverse_cons, List.find?_append]
    rcases List.mem_cons.mp ha with rfl | ha'
    · have hnone : xs.reverse.find? (fun y => key y == key a) = none := by
        apply List.find?_eq_none.mpr
        intro y hy
        simp only [beq_iff_eq]
        intro hc
        exact hnd.1 (hc ▸ List.mem_map_of_mem key (List.mem_reverse.mp hy))
      rw [hnone]
      simp
    · have hsome : xs.reverse.find? (fun y => key y == key a) = some a := ih hnd.2 ha'
      rw [hsome]
      rfl

theorem length_filterMap_if {β : Type} {p : α → Bool} {f : α → β} (l : List α) :
    (l.filterMap (fun a => if p a then some (f a) else none)).length = l.countP p := by
  induction l with
  | nil => rfl
  | cons x xs ih =>
    by_cases h : p x <;>
      simp [List.filterMap_cons, h, ih, List.countP_cons]

theorem allPairs_length (l : List α) : (allPairs l).length = l.length.choose 2 := by
  induction l with
  | nil => rfl
  | cons x xs ih =>
    simp only [allPairs, List.length_append, List.length_map, ih, List.length_cons]
    rw [Nat.choose_succ_succ, Nat.choose_one_right, Nat.add_comm]

theorem emitPilotGroup_fields {pilots : List Pilot} {g : String × List Mission} :
    ∀ c ∈ emitPilotGroup pilots g,
      c.conflict_type = "Double Booking" ∧ c.severity = "Critical" ∧
        c.entity_id = g.1 := by
  intro c hc
  obtain ⟨ab, _, hf⟩ := List.mem_filterMap.mp hc
  by_cases hov : ab.1.overlaps_with ab.2
  · rw [if_pos hov] at hf
    cases hlk : dictLookup Pilot.pilot_id pilots g.1 with
    | none => rw [hlk] at hf; exact absurd hf (by simp)
    | some p =>
      rw [hlk] at hf
      obtain rfl := Option.some.inj hf
      exact ⟨rfl, rfl, rfl⟩
  · rw [if_neg hov] at hf
    exact absurd hf (by simp)

theorem emitDroneGroup_fields {drones : List Drone} {g : String × List Mission} :
    ∀ c ∈ emitDroneGroup drones g,
      c.conflict_type = "Double Booking" ∧ c.severity = "Critical" ∧
        c.entity_id = g.1 := by
  intro c hc
  obtain ⟨ab, _, hf⟩ := List.mem_filterMap.mp hc
  by_cases hov : ab.1.overlaps_with ab.2
  · rw [if_pos hov] at hf
    cases hlk : dictLookup Drone.drone_id drones g.1 with
    | none => rw [hlk] at hf; exact absurd hf (by simp)
    | some d =>
      rw [hlk] at hf
      obtain rfl := Option.some.inj hf
      exact ⟨rfl, rfl, rfl⟩
  · rw [if_neg hov] at hf
    exact absurd hf (by simp)

theorem emitPilotGroup_length {pilots : List Pilot} {k : String} {l : List Mission}
    {p : Pilot} (hlk : dictLookup Pilot.pilot_id pilots k = some p) :
    (emitPilotGroup pilots (k, l)).length =
      (allPairs l).countP (fun ab => ab.1.overlaps_with ab.2) := by
  unfold emitPilotGroup
  simp only [hlk]
  exact length_filterMap_if _

theorem emitDroneGroup_length {drones : List Drone} {k : String} {l : List Mission}
    {d : Drone} (hlk : dictLookup Drone.drone_id drones k = some d) :
    (emitDroneGroup drones (k, l)).length =
      (allPairs l).countP (fun ab => ab.1.overlaps_with ab.2) := by
  unfold emitDroneGroup
  simp only [hlk]
  exact length_filterMap_if _

theorem flatMap_filter_length_eq (emit : String × List Mission → List Conflict)
    (gs : List (String × List Mission)) (pid : String)
    (hent : ∀ g ∈ gs, ∀ c ∈ emit g, c.entity_id = g.1)
    (hnd : (gs.map Prod.fst).Nodup)
    (hnil : emit (pid, []) = []) :
    ((gs.flatMap emit).filter (fun c => c.entity_id == pid)).length =
      (emit (pid, lookupGroup gs pid)).length := by
  induction gs with
  | nil => simp [lookupGroup, hnil]
  | cons g rest ih =>
    simp only [List.flatMap_cons, List.filter_append, List.length_append]
    simp only [List.map_cons, List.nodup_cons] at hnd
    by_cases hk : g.1 = pid
    · have h1 : (emit g).filter (fun c => c.entity_id == pid) = emit g :=
        List.filter_eq_self.mpr (fun c hc => by
          simp [hent g (List.mem_cons_self _ _) c hc, hk])
      have h2 : (rest.flatMap emit).filter (fun c => c.entity_id == pid) = [] := by
        apply List.filter_eq_nil_iff.mpr
        intro c hc
        obtain ⟨g', hg', hcg'⟩ := List.mem_flatMap.mp hc
        have he := hent g' (List.mem_cons_of_mem _ hg') c hcg'
        simp only [he, beq_iff_eq]
        intro hcon
        rw [← hk] at hcon
        exact hnd.1 (hcon ▸ List.mem_map_of_mem Prod.fst hg')
      have h3 : lookupGroup (g :: rest) pid = g.2 := by
        simp only [lookupGroup]
        rw [List.find?_cons_of_pos _ (by simpa using hk)]
      rw [h1, h2, h3, List.length_nil, Nat.add_zero, ← hk]
    · have h1 : (emit g).filter (fun c => c.entity_id == pid) = [] := by
        apply List.filter_eq_nil_iff.mpr
        intro c hc
        have he := hent g (List.mem_cons_self _ _) c hc
        simp [he, hk]
      have h3 : lookupGroup (g :: rest) pid = lookupGroup rest pid := by
        simp only [lookupGroup]
        rw [List.find?_cons_of_neg _ (by simpa using hk)]
      rw [h1, h3, List.length_nil, Nat.zero_add]
      exact ih (fun g' hg' => hent g' (List.mem_cons_of_mem _ hg')) hnd.2

theorem phase1_plans_nil_left (u : Mission)
    (bd : List (Drone × ℚ × List (String × ℚ))) : phase1_plans u [] bd = [] := rfl

/-! ## Claim theorems -/

/-- C1 (code bug evaluation): on a snapshot satisfying the bidirectional
invariant, the status-update mutator applied to an assigned pilot ("mark P1 as
Available") clears only the pilot's own fields and leaves the mission's
`assigned_pilot` pointing at the pilot, so the invariant is broken by a single
mutator — contradicting the claim that every mutator preserves it. -/
theorem status_update_breaks_bidirectional_invariant :
    bidirInv snap1 ∧ ¬ bidirInv (handle_update_status "P1" "Available" snap1) := by
  decide

/-- C2 (counterexample): `executeReassignment` on a plan whose suggested pilot
id is absent from the pilots list fails (the bare `next()` raises, modelled by
`result = none`) AFTER clearing the displaced mission's pilot field, so a
referential-integrity failure can leave a partial mutation behind. -/
theorem execute_reassignment_partial_mutation_counterexample :
    (execute_reassignment exPlan [] [] [exM1, exM2]).result = none ∧
    (execute_reassignment exPlan [] [] [exM1, exM2]).missions ≠ [exM1, exM2] := by
  decide

/-- C2 (amended): when the plan's urgent-mission id matches no mission in the
snapshot, `executeReassignment` returns the descriptive NotFound message and
every pilot, drone and mission is left exactly unchanged — the mission lookup
precedes all mutation. -/
theorem execute_reassignment_notfound_no_mutation (plan : SwapPlan)
    (pilots : List Pilot) (drones : List Drone) (missions : List Mission)
    (h : ∀ m ∈ missions, m.project_id ≠ plan.urgent_mission_id) :
    execute_reassignment plan pilots drones missions =
      ⟨pilots, drones, missions,
        some ("❌ Mission " ++ plan.urgent_mission_id ++ " not found.")⟩ := by
  have hf : missions.find? (fun m => m.project_id == plan.urgent_mission_id) = none := by
    apply List.find?_eq_none.mpr
    intro m hm
    simpa using h m hm
  simp [execute_reassignment, hf]

/-- C2 (witness): the NotFound theorem applied at a concrete plan and empty
snapshot. -/
theorem execute_reassignment_notfound_no_mutation_witness :
    execute_reassignment exPlanNF [] [] [exM1] =
      ⟨[], [], [exM1], some ("❌ Mission " ++ "MX" ++ " not found.")⟩ :=
  execute_reassignment_notfound_no_mutation exPlanNF [] [] [exM1] (by decide)

/-- C3 (counterexample): at pilotScore 47/50, droneScore 1, no swap, the code
returns 1 (truncation of 3/2) while the claimed formula with rounding gives 2,
so `computeRisk` does not round its base term. -/
theorem compute_risk_not_rounded :
    compute_risk_score (47/50) 1 false none ≠
      imax 0 (imin 100 (pyRound ((1 - ((47:ℚ)/50 + 1) / 2) * 50))) := by
  have e : (1 - ((47:ℚ)/50 + 1) / 2) * 50 = 3/2 := by norm_num
  have hnum : ((3:ℚ)/2).num = 3 := by norm_num
  have hden : ((3:ℚ)/2).den = 2 := by norm_num
  have htd : Int.tdiv 3 ((2:ℕ):ℤ) = 1 := by decide
  have hfd : Int.fdiv 3 ((2:ℕ):ℤ) = 1 := by decide
  have hL : compute_risk_score (47/50) 1 false none = 1 := by
    simp only [compute_risk_score, Bool.false_eq_true, if_false, e]
    rw [pyInt, hnum, hden, htd]
    norm_num [imax, imin]
  have hR : imax 0 (imin 100 (pyRound ((1 - ((47:ℚ)/50 + 1) / 2) * 50))) = 2 := by
    rw [e, pyRound, ratFloor, hnum, hden, hfd]
    norm_num [imax, imin]
  rw [hL, hR]
  decide

/-- C3 (amended): `computeRisk` equals the clamp to 0..100 of the Python
`int()` truncation of `(1 - (pilotScore + droneScore)/2) * 50`, plus — when
isSwap — a flat 20, plus 20 for High, 30 for Urgent, and 5 for Standard or Low
displaced priority. -/
theorem compute_risk_closed_form (p d : ℚ) (sw : Bool) (pr : Option String) :
    compute_risk_score p d sw pr =
      imax 0 (imin 100 (pyInt ((1 - (p + d) / 2) * 50) +
        (if sw then
          20 + (if pr = some "High" then 20
            else if pr = some "Urgent" then 30
            else if pr = some "Standard" ∨ pr = some "Low" then 5 else 0)
         else 0))) := by
  cases sw <;> simp [compute_risk_score, add_assoc]

/-- C7: the set-overlap scorer returns 1 on an empty requirement set, else the
normalized-intersection fraction, and always lies in the interval 0..1. -/
theorem set_overlap_score_spec (required available : Finset String) :
    (required = ∅ → set_overlap_score required available = 1) ∧
    (required ≠ ∅ → set_overlap_score required available =
      ((required.image normLS ∩ available.image normLS).card : ℚ) /
        ((required.image normLS).card : ℚ)) ∧
    0 ≤ set_overlap_score required available ∧
    set_overlap_score required available ≤ 1 := by
  refine ⟨fun h => by simp [set_overlap_score, h], fun h => by simp [set_overlap_score, h], ?_⟩
  by_cases h : required = ∅
  · simp [set_overlap_score, h]
  · have hne : (required.image normLS).Nonempty :=
      (Finset.nonempty_iff_ne_empty.mpr h).image normLS
    have hpos : 0 < ((required.image normLS).card : ℚ) := by
      exact_mod_cast Finset.card_pos.mpr hne
    have hle : ((required.image normLS ∩ available.image normLS).card : ℚ) ≤
        ((required.image normLS).card : ℚ) := by
      exact_mod_cast Finset.card_le_card Finset.inter_subset_left
    constructor
    · simp only [set_overlap_score, h, if_false]
      positivity
    · simp only [set_overlap_score, h, if_false]
      exact div_le_one_of_le₀ hle (le_of_lt hpos)

/-- C7 (witness): the empty-requirement case at concrete sets. -/
theorem set_overlap_score_spec_witness :
    set_overlap_score ∅ {"thermal"} = 1 :=
  (set_overlap_score_spec ∅ {"thermal"}).1 rfl

/-- C4: phase 2 of `suggestReassignment` runs exactly when phase 1 found zero
Available pilots (drone scarcity alone does not trigger it, and when an
Available pilot exists no plan displaces anything); the phase-2 candidate
pool is precisely the staffed Standard/Low missions, considered in
priority-rank-descending order (Low before Standard); and a displacement plan
for a pool mission's resolvable pilot is produced iff that pilot scores at
least 0.3 against the urgent mission. -/
theorem suggest_phase2_rules (urgent : Mission) (pilots : List Pilot)
    (drones : List Drone) (missions : List Mission) :
    (reassignable_pool missions ~
        missions.filter
          (fun m => m.assigned_pilot ≠ "" ∧ (m.priority = "Low" ∨ m.priority = "Standard")) ∧
      (reassignable_pool missions).Pairwise (fun a b => b.priority_rank ≤ a.priority_rank)) ∧
    ((∃ p ∈ pilots, p.status = "Available") →
      ∀ pl ∈ suggest_reassignment urgent pilots drones missions,
        pl.displaced_from_mission = none) ∧
    ((∀ p ∈ pilots, p.status ≠ "Available") →
      (missions.map Mission.project_id).Nodup →
      ∀ m ∈ missions, m.assigned_pilot ≠ "" →
      (m.priority = "Low" ∨ m.priority = "Standard") →
      ∀ cand, dictLookup Pilot.pilot_id pilots m.assigned_pilot = some cand →
        (0.3 ≤ (score_pilot_for_mission cand urgent).1 ↔
          ∃ pl ∈ suggest_reassignment urgent pilots drones missions,
            pl.displaced_from_mission = some m.project_id ∧
            pl.suggested_pilot = some cand)) := by
  refine ⟨⟨sortKeyDesc_perm _ _, sortKeyDesc_sorted _ _⟩, ?_, ?_⟩
  · intro hp pl hpl
    have hbp := find_best_pilots_ne_nil_of_available (m := urgent) hp
    have h2 := (mem_suggest_fields_iff pl.displaced_from_mission
      pl.suggested_pilot).mp ⟨pl, hpl, rfl, rfl⟩
    obtain ⟨pl0, hpl0, hd0, _⟩ := h2
    rw [if_neg hbp, List.append_nil] at hpl0
    rw [← hd0]
    exact phase1_plans_displaced_none pl0 hpl0
  · intro hz hnodup m hm hap hprio cand hlk
    have hbp := find_best_pilots_nil_of_none_available (m := urgent) (n := 3) hz
    constructor
    · intro h03
      obtain ⟨pl, hfor, hd, hs⟩ :=
        phase2_plan_for_some_of (find_best_drones drones urgent 3) hlk (not_lt.mpr h03)
      have hpool : m ∈ reassignable_pool missions := by
        refine (sortKeyDesc_perm Mission.priority_rank _).mem_iff.mpr ?_
        refine List.mem_filter.mpr ⟨hm, ?_⟩
        simp only [decide_eq_true_eq]
        exact ⟨hap, hprio⟩
      have hmem2 : pl ∈ phase2_plans urgent pilots (find_best_drones drones urgent 3) missions :=
        List.mem_filterMap.mpr ⟨m, hpool, hfor⟩
      refine (mem_suggest_fields_iff (some m.project_id) (some cand)).mpr ?_
      refine ⟨pl, ?_, hd, hs⟩
      rw [hbp, phase1_plans_nil_left, if_pos rfl, List.nil_append]
      exact hmem2
    · rintro ⟨pl, hpl, hd, hs⟩
      have h2 := (mem_suggest_fields_iff (some m.project_id)
        (some cand)).mp ⟨pl, hpl, hd, hs⟩
      obtain ⟨pl0, hpl0, hd0, hs0⟩ := h2
      rw [hbp, phase1_plans_nil_left, if_pos rfl, List.nil_append] at hpl0
      obtain ⟨m', hm'pool, hfor⟩ := List.mem_filterMap.mp hpl0
      obtain ⟨hd', cand', hlk', hs', hsc'⟩ := phase2_plan_for_fields hfor
      have hid : m'.project_id = m.project_id := Option.some.inj (hd'.symm.trans hd0)
      have hm' : m' ∈ missions := by
        have hmf := (sortKeyDesc_perm Mission.priority_rank _).mem_iff.mp hm'pool
        exact (List.mem_filter.mp hmf).1
      have hmm : m' = m := nodup_map_inj hnodup hm' hm hid
      subst hmm
      have hcc : cand' = cand := by
        have h1 := hlk'.symm.trans hlk
        exact Option.some.inj h1
      rw [hcc] at hsc'
      exact not_lt.mp hsc'

/-- C4 (witness): the plan-existence criterion applied at a concrete snapshot
with no Available pilot and one staffed Low mission. -/
theorem suggest_phase2_rules_witness :
    0.3 ≤ (score_pilot_for_mission busyPilot urgentM).1 ↔
      ∃ pl ∈ suggest_reassignment urgentM [busyPilot] [] [lowM],
        pl.displaced_from_mission = some "ML" ∧
        pl.suggested_pilot = some busyPilot := by
  have h := (suggest_phase2_rules urgentM [busyPilot] [] [lowM]).2.2
    (by decide) (by decide) lowM (by decide) (by decide) (by decide)
    busyPilot (by decide)
  exact h

/-- C5: for every pilot (with non-empty id, ids unique) the double-booking
scan emits exactly as many conflicts carrying that pilot's entity id as there
are index-ordered pairs of that pilot's assigned missions whose dates overlap
— one per overlapping pair, none duplicated or omitted — every such conflict
is a Critical "Double Booking", and when all k assigned missions mutually
overlap the count is k choose 2; the same holds for drones. -/
theorem double_booking_pairs (pilots : List Pilot) (drones : List Drone)
    (missions : List Mission)
    (hndP : (pilots.map Pilot.pilot_id).Nodup)
    (hndD : (drones.map Drone.drone_id).Nodup) :
    (∀ c ∈ detect_double_bookings pilots missions,
        c.conflict_type = "Double Booking" ∧ c.severity = "Critical") ∧
    (∀ p ∈ pilots, p.pilot_id ≠ "" →
      ((detect_double_bookings pilots missions).filter
          (fun c => c.entity_id == p.pilot_id)).length =
        (allPairs (missions.filter (fun m => m.assigned_pilot == p.pilot_id))).countP
          (fun ab => ab.1.overlaps_with ab.2) ∧
      ((∀ ab ∈ allPairs (missions.filter (fun m => m.assigned_pilot == p.pilot_id)),
          ab.1.overlaps_with ab.2) →
        ((detect_double_bookings pilots missions).filter
            (fun c => c.entity_id == p.pilot_id)).length =
          (missions.filter (fun m => m.assigned_pilot == p.pilot_id)).length.choose 2)) ∧
    (∀ c ∈ detect_drone_double_bookings drones missions,
        c.conflict_type = "Double Booking" ∧ c.severity = "Critical") ∧
    (∀ d ∈ drones, d.drone_id ≠ "" →
      ((detect_drone_double_bookings drones missions).filter
          (fun c => c.entity_id == d.drone_id)).length =
        (allPairs (missions.filter (fun m => m.assigned_drone == d.drone_id))).countP
          (fun ab => ab.1.overlaps_with ab.2) ∧
      ((∀ ab ∈ allPairs (missions.filter (fun m => m.assigned_drone == d.drone_id)),
          ab.1.overlaps_with ab.2) →
        ((detect_drone_double_bookings drones missions).filter
            (fun c => c.entity_id == d.drone_id)).length =
          (missions.filter (fun m => m.assigned_drone == d.drone_id)).length.choose 2)) := by
  refine ⟨?_, ?_, ?_, ?_⟩
  · intro c hc
    obtain ⟨g, hg, hcg⟩ := List.mem_flatMap.mp hc
    have h := emitPilotGroup_fields c hcg
    exact ⟨h.1, h.2.1⟩
  · intro p hp hne
    have hlk : dictLookup Pilot.pilot_id pilots p.pilot_id = some p :=
      dictLookup_eq_some_self hndP hp
    have hgrp : lookupGroup (pilotGroups pilots missions) p.pilot_id =
        missions.filter (fun m => m.assigned_pilot == p.pilot_id) := by
      show lookupGroup (groupsBy _ _ missions) p.pilot_id = _
      unfold groupsBy
      rw [foldl_groups_lookup missions [] ?hg]
      · rfl
      case hg =>
        intro m _ he
        simp only [decide_eq_true_eq]
        rw [he]
        exact ⟨hne, by rw [hlk]; rfl⟩
    have hcount := flatMap_filter_length_eq (emitPilotGroup pilots)
      (pilotGroups pilots missions) p.pilot_id
      (fun g _ c hc => (emitPilotGroup_fields c hc).2.2)
      (groupsBy_keys_nodup _ _ _) rfl
    rw [hgrp] at hcount
    have hmain : ((detect_double_bookings pilots missions).filter
        (fun c => c.entity_id == p.pilot_id)).length =
        (allPairs (missions.filter (fun m => m.assigned_pilot == p.pilot_id))).countP
          (fun ab => ab.1.overlaps_with ab.2) := by
      rw [detect_double_bookings, hcount, emitPilotGroup_length hlk]
    refine ⟨hmain, fun hall => ?_⟩
    rw [hmain, List.countP_eq_length.mpr hall, allPairs_length]
  · intro c hc
    obtain ⟨g, hg, hcg⟩ := List.mem_flatMap.mp hc
    have h := emitDroneGroup_fields c hcg
    exact ⟨h.1, h.2.1⟩
  · intro d hd hne
    have hlk : dictLookup Drone.drone_id drones d.drone_id = some d :=
      dictLookup_eq_some_self hndD hd
    have hgrp : lookupGroup (droneGroups drones missions) d.drone_id =
        missions.filter (fun m => m.assigned_drone == d.drone_id) := by
      show lookupGroup (groupsBy _ _ missions) d.drone_id = _
      unfold groupsBy
      rw [foldl_groups_lookup missions [] ?hg]
      · rfl
      case hg =>
        intro m _ he
        simp only [decide_eq_true_eq]
        rw [he]
        exact ⟨hne, by rw [hlk]; rfl⟩
    have hcount := flatMap_filter_length_eq (emitDroneGroup drones)
      (droneGroups drones missions) d.drone_id
      (fun g _ c hc => (emitDroneGroup_fields c hc).2.2)
      (groupsBy_keys_nodup _ _ _) rfl
    rw [hgrp] at hcount
    have hmain : ((detect_drone_double_bookings drones missions).filter
        (fun c => c.entity_id == d.drone_id)).length =
        (allPairs (missions.filter (fun m => m.assigned_drone == d.drone_id))).countP
          (fun ab => ab.1.overlaps_with ab.2) := by
      rw [detect_drone_double_bookings, hcount, emitDroneGroup_length hlk]
    refine ⟨hmain, fun hall => ?_⟩
    rw [hmain, List.countP_eq_length.mpr hall, allPairs_length]

/-- C5 (witness): the pair-count identity applied at a concrete snapshot of
one pilot holding two overlapping missions. -/
theorem double_booking_pairs_witness :
    ((detect_double_bookings [dbPilot] [dbM1, dbM2]).filter
        (fun c => c.entity_id == dbPilot.pilot_id)).length =
      (allPairs ([dbM1, dbM2].filter (fun m => m.assigned_pilot == dbPilot.pilot_id))).countP
        (fun ab => ab.1.overlaps_with ab.2) :=
  ((double_booking_pairs [dbPilot] [] [dbM1, dbM2] (by decide) (by decide)).2.1
    dbPilot (by decide) (by decide)).1

/-- C6: `findBestPilots` returns exactly the topN highest-scoring Available
pilots — members of the input with status Available carrying their exact
score and breakdown; length min(topN, #available); sorted descending by raw
score; together with the dropped candidates a permutation of the scored pool,
every dropped candidate scoring no higher than every returned one; stable on
ties (the returned candidates at any fixed score are a sublist of the pool in
original order); and the empty list — never an error — when no pilot
qualifies. `findBestDrones` behaves identically over Available drones. -/
theorem find_best_spec (pilots : List Pilot) (drones : List Drone)
    (mission : Mission) (n : Nat) :
    ((∀ t ∈ find_best_pilots pilots mission n,
        t.1 ∈ pilots ∧ t.1.status = "Available" ∧
          t.2 = score_pilot_for_mission t.1 mission) ∧
      (find_best_pilots pilots mission n).length =
        min n (pilots.filter (fun p => p.is_available)).length ∧
      (find_best_pilots pilots mission n).Pairwise (fun a b => b.2.1 ≤ a.2.1) ∧
      (∃ rest, find_best_pilots pilots mission n ++ rest ~ pilotCandidates pilots mission ∧
        ∀ a ∈ find_best_pilots pilots mission n, ∀ b ∈ rest, b.2.1 ≤ a.2.1) ∧
      (∀ q : ℚ, (find_best_pilots pilots mission n).filter (fun t => decide (t.2.1 = q)) <+
        (pilotCandidates pilots mission).filter (fun t => decide (t.2.1 = q))) ∧
      ((∀ p ∈ pilots, p.status ≠ "Available") → find_best_pilots pilots mission n = [])) ∧
    ((∀ t ∈ find_best_drones drones mission n,
        t.1 ∈ drones ∧ t.1.status = "Available" ∧
          t.2 = score_drone_for_mission t.1 mission) ∧
      (find_best_drones drones mission n).length =
        min n (drones.filter (fun d => d.is_available)).length ∧
      (find_best_drones drones mission n).Pairwise (fun a b => b.2.1 ≤ a.2.1) ∧
      (∃ rest, find_best_drones drones mission n ++ rest ~ droneCandidates drones mission ∧
        ∀ a ∈ find_best_drones drones mission n, ∀ b ∈ rest, b.2.1 ≤ a.2.1) ∧
      (∀ q : ℚ, (find_best_drones drones mission n).filter (fun t => decide (t.2.1 = q)) <+
        (droneCandidates drones mission).filter (fun t => decide (t.2.1 = q))) ∧
      ((∀ d ∈ drones, d.status ≠ "Available") → find_best_drones drones mission n = [])) := by
  constructor
  · refine ⟨?_, ?_, ?_, ?_, ?_, ?_⟩
    · intro t ht
      have ht' : t ∈ (sortKeyDesc (fun t => t.2.1) (pilotCandidates pilots mission)).take n := ht
      have h2 : t ∈ pilotCandidates pilots mission :=
        (sortKeyDesc_perm (fun t => t.2.1) _).subset (List.mem_of_mem_take ht')
      obtain ⟨p, hp, rfl⟩ := List.mem_map.mp h2
      have hf := List.mem_filter.mp hp
      refine ⟨hf.1, ?_, rfl⟩
      simpa [Pilot.is_available] using hf.2
    · rw [find_best_pilots, takeSorted_length]
      simp [pilotCandidates]
    · exact takeSorted_sorted _ _ n
    · exact takeSorted_split _ _ n
    · intro q
      exact takeSorted_stable _ _ n q
    · intro h
      have hnil : pilots.filter (fun p => p.is_available) = [] :=
        List.filter_eq_nil_iff.mpr (fun p hp => by
          simp only [Pilot.is_available, beq_iff_eq]
          exact h p hp)
      simp [find_best_pilots, pilotCandidates, hnil, sortKeyDesc]
  · refine ⟨?_, ?_, ?_, ?_, ?_, ?_⟩
    · intro t ht
      have ht' : t ∈ (sortKeyDesc (fun t => t.2.1) (droneCandidates drones mission)).take n := ht
      have h2 : t ∈ droneCandidates drones mission :=
        (sortKeyDesc_perm (fun t => t.2.1) _).subset (List.mem_of_mem_take ht')
      obtain ⟨d, hd, rfl⟩ := List.mem_map.mp h2
      have hf := List.mem_filter.mp hd
      refine ⟨hf.1, ?_, rfl⟩
      simpa [Drone.is_available] using hf.2
    · rw [find_best_drones, takeSorted_length]
      simp [droneCandidates]
    · exact takeSorted_sorted _ _ n
    · exact takeSorted_split _ _ n
    · intro q
      exact takeSorted_stable _ _ n q
    · intro h
      have hnil : drones.filter (fun d => d.is_available) = [] :=
        List.filter_eq_nil_iff.mpr (fun d hd => by
          simp only [Drone.is_available, beq_iff_eq]
          exact h d hd)
      simp [find_best_drones, droneCandidates, hnil, sortKeyDesc]

/-- C6 (witness): the membership-and-availability component applied at a
concrete one-pilot roster. -/
theorem find_best_spec_witness : arjunAvail ∈ [arjunAvail] ∧ arjunAvail.status = "Available" := by
  have h := (find_best_spec [arjunAvail] [] prj1 3).1.1
    (arjunAvail, score_pilot_for_mission arjunAvail prj1)
    (by simp [find_best_pilots, pilotCandidates, sortKeyDesc, arjunAvail, Pilot.is_available])
  exact ⟨h.1, h.2.1⟩

/-- C8: conflict detection is a pure function of the snapshot — repeated calls
return the identical list — and the combined scan is exactly the five
detectors concatenated in the fixed order pilot double-booking, drone
double-booking, skill/cert mismatch, maintenance, location mismatch. -/
theorem detect_all_conflicts_idempotent_ordered (ps : List Pilot) (ds : List Drone)
    (ms : List Mission) :
    detect_all_conflicts ps ds ms = detect_all_conflicts ps ds ms ∧
    detect_all_conflicts ps ds ms =
      detect_double_bookings ps ms ++ detect_drone_double_bookings ds ms ++
        detect_skill_mismatches ps ms ++ detect_maintenance_conflicts ds ms ++
        detect_location_mismatches ps ds ms := by
  refine ⟨rfl, ?_⟩
  simp [detect_all_conflicts, List.append_assoc]

/-- C10: when some pilot is Available but no drone is, `suggestReassignment`
returns the empty list — phase 1 needs both candidate lists non-empty and
phase 2 is not triggered because available pilots exist, so drone scarcity
with pilots on hand yields no plans at all. -/
theorem drone_scarcity_no_plans (urgent : Mission) (pilots : List Pilot)
    (drones : List Drone) (missions : List Mission)
    (hp : ∃ p ∈ pilots, p.status = "Available")
    (hd : ∀ d ∈ drones, d.status ≠ "Available") :
    suggest_reassignment urgent pilots drones missions = [] := by
  have hbd : find_best_drones drones urgent 3 = [] :=
    find_best_drones_nil_of_none_available hd
  have hbp := find_best_pilots_ne_nil_of_available (m := urgent) hp
  obtain ⟨x, xs, hbpe⟩ : ∃ x xs, find_best_pilots pilots urgent 3 = x :: xs := by
    cases hfb : find_best_pilots pilots urgent 3 with
    | nil => exact absurd hfb hbp
    | cons x xs => exact ⟨x, xs, rfl⟩
  simp [suggest_reassignment, hbd, hbpe, phase1_plans]

/-- C10 (witness): a concrete snapshot with one Available pilot and one
Maintenance drone produces no plans. -/
theorem drone_scarcity_no_plans_witness :
    suggest_reassignment prj1 [arjunAvail] [idleDrone] [] = [] :=
  drone_scarcity_no_plans prj1 [arjunAvail] [idleDrone] [] (by decide) (by decide)

/-- C9: for every rational pilot and drone score, both swap flags and every
displaced-priority value (including "Urgent"), `computeRisk` lies in 0..100. -/
theorem compute_risk_range (p d : ℚ) (sw : Bool) (pr : Option String) :
    0 ≤ compute_risk_score p d sw pr ∧ compute_risk_score p d sw pr ≤ 100 := by
  have h : ∀ x : ℤ, 0 ≤ imax 0 (imin 100 x) ∧ imax 0 (imin 100 x) ≤ 100 := by
    intro x
    unfold imax imin
    split_ifs <;> omega
  exact h _

end SkyMesh
